import Mathlib

/-!
Verification of the `jx upgrade boot` orchestration (`pkg/cmd/upgrade/upgrade_boot.go`).

The Go code is a sequential orchestration over external services (git plumbing,
requirements persistence, version resolution, code-hosting provider, cluster
identity source).  We embed it shallowly: every external call is a field of an
`Env` record (an oracle that either succeeds with a value or fails with an error
string), and every function of the source file becomes a Lean function over
`Env` returning its result in `Except String` together with a trace of the
repository-mutating effects it performed (`Event`).  Cherry-pick events record
the attempt (matching the source, which attempts each commit in turn); all other
events record an operation that actually succeeded.
-/

namespace UpgradeBoot

/-- Boolean "is this list a prefix of that one" over characters. -/
def charsPrefixOf : List Char → List Char → Bool
  | [], _ => true
  | _ :: _, [] => false
  | a :: as, b :: bs => a == b && charsPrefixOf as bs

/-- Boolean "does `pat` occur as a contiguous sublist of `s`". -/
def charsInfixOf (pat : List Char) : List Char → Bool
  | [] => charsPrefixOf pat []
  | b :: bs => charsPrefixOf pat (b :: bs) || charsInfixOf pat bs

/-- Embedding of Go `strings.Contains s pat`. -/
def strContains (s pat : String) : Bool :=
  charsInfixOf pat.toList s.toList

/-- Embedding of `errors.Wrap`/`errors.Wrapf`: the message produced wraps the
underlying error text. -/
def wrapErr (m e : String) : String := m ++ ": " ++ e

/-- `gits.GitCommit` (the fields the upgrade code reads: SHA and subject). -/
structure GitCommit where
  sha : String
  subject : String
  deriving DecidableEq, Repr

/-- `config.VersionStreamConfig`: `{URL, Ref}`. -/
structure VersionStreamConfig where
  URL : String
  Ref : String
  deriving DecidableEq, Repr

/-- The slice of `config.RequirementsConfig` the upgrade code touches. -/
structure RequirementsConfig where
  versionStream : VersionStreamConfig
  deriving DecidableEq, Repr

/-- `UpgradeBootOptions` command options (the fields the orchestration reads). -/
structure UpgradeBootOptions where
  GitURL : String
  VersionStreamURL : String
  VersionStreamRef : String
  Dir : String
  deriving DecidableEq, Repr

/-- Repository-mutating effects performed by the orchestration.  A trace of
these is returned alongside every result. -/
inductive Event where
  | setUsername (dir user : String)
  | setEmail (dir email : String)
  | cloneDevEnv (dir : String)
  | createBranch (dir branch : String)
  | checkout (dir branch : String)
  | fetchBranch (dir url ref : String)
  | cherryPickAttempt (dir sha : String)
  | checkoutCommitFiles (dir commit : String) (files : List String)
  | saveConfig (file : String)
  | addCommitFiles (dir msg : String) (files : List String)
  | createPullRequest (dir : String)
  | deleteLocalBranch (dir branch : String)
  deriving DecidableEq, Repr

/-- The oracle for every external collaborator the source file calls.  Each
field models one fallible call: `Except String α` for calls producing a value,
`Option String` for calls producing only a possible error (`none` = success). -/
structure Env where
  /-- `kube.GetDevEnvironment`: pipeline username and email. -/
  DevEnv : Except String (String × String)
  /-- `Git().SetUsername dir user`. -/
  SetUsername : String → String → Option String
  /-- `Git().SetEmail dir email`. -/
  SetEmail : String → String → Option String
  /-- `cloneDevEnv`: temp-dir creation, auth and clone of the dev env repo,
  collapsed into the directory it yields on success. -/
  CloneDevEnvDir : Except String String
  /-- `loadRequirementsConfig`: the parsed requirements and the file path,
  or an error (load failure or missing file). -/
  LoadRequirements : Except String (RequirementsConfig × String)
  /-- `config.LoadActiveInstallProfile() == config.CloudBeesProfile`. -/
  CloudBeesProfile : Bool
  /-- `CloneJXVersionsRepo url ref`: the versions-repo clone directory. -/
  CloneJXVersionsRepo : String → String → Except String String
  /-- `Git().GetCommitPointedToByTag dir tag`. -/
  GetCommitPointedToByTag : String → String → Except String String
  /-- `uuid.NewV4().String()`: the fresh working-branch name. -/
  NewBranchName : Except String String
  /-- `Git().CreateBranch dir branch`. -/
  CreateBranch : String → String → Option String
  /-- `Git().Checkout dir branch`. -/
  Checkout : String → String → Option String
  /-- `cloneBootConfig`: temp dir plus `Git().CloneBare`, collapsed into the
  clone directory it yields on success. -/
  CloneBare : String → Except String String
  /-- `CreateVersionResolver(vsURL, vsRef)` followed by
  `resolver.ResolveGitVersion configURL`, collapsed into one fallible call. -/
  ResolveGitVersion : String → String → String → Except String String
  /-- `Git().FetchBranch dir url ref`. -/
  FetchBranch : String → String → String → Option String
  /-- `Git().GetCommits dir fromSha toSha` (newest-first history). -/
  GetCommits : String → String → String → Except String (List GitCommit)
  /-- `Git().CherryPickTheirs dir sha`: `none` on success, the error text
  otherwise. -/
  CherryPickTheirs : String → String → Option String
  /-- `Git().CheckoutCommitFiles dir commit files`. -/
  CheckoutCommitFiles : String → String → List String → Option String
  /-- `requirements.SaveConfig file`. -/
  SaveConfig : String → Option String
  /-- `Git().AddCommitFiles dir message files`: `none` when a commit was
  created, the error text otherwise (including "nothing to commit"). -/
  AddCommitFiles : String → String → List String → Option String
  /-- `raisePR` internals: git info, provider lookup and
  `PushRepoAndCreatePullRequest`, collapsed into one fallible call. -/
  RaisePR : Option String
  /-- `Git().DeleteLocalBranch dir branch`. -/
  DeleteLocalBranch : String → String → Option String

/-- Modelled from the spec: `config.DefaultVersionsURL`, a constant of the
`config` package outside this slice; the system-wide default version-stream
URL, non-empty (the test data pins the same URL). -/
def DefaultVersionsURL : String := "https://github.com/jenkins-x/jenkins-x-versions.git"

/-- Modelled from the spec: `config.DefaultVersionsRef`, the default
version-stream ref for the OSS profile, non-empty. -/
def DefaultVersionsRef : String := "master"

/-- Modelled from the spec: `config.DefaultCloudBeesVersionsRef`, the default
version-stream ref for the CloudBees install profile, non-empty. -/
def DefaultCloudBeesVersionsRef : String := "master"

/-- Modelled from the spec: `config.DefaultCloudBeesVersionsURL`, the CloudBees
versions-repo URL constant of the `config` package. -/
def DefaultCloudBeesVersionsURL : String := "https://github.com/cloudbees/cloudbees-jenkins-x-versions.git"

/-- Modelled from the spec: `config.DefaultBootRepository`, the default boot
config repository URL. -/
def DefaultBootRepository : String := "https://github.com/jenkins-x/jenkins-x-boot-config.git"

/-- Modelled from the spec: `config.DefaultCloudBeesBootRepository`, the
CloudBees boot config repository URL. -/
def DefaultCloudBeesBootRepository : String := "https://github.com/cloudbees/cloudbees-jenkins-x-boot-config.git"

/-- `defaultVersionStreamConfig` (upgrade_boot.go:167-177). -/
def defaultVersionStreamConfig (env : Env) : VersionStreamConfig :=
  if env.CloudBeesProfile then
    { Ref := DefaultCloudBeesVersionsRef, URL := DefaultVersionsURL }
  else
    { Ref := DefaultVersionsRef, URL := DefaultVersionsURL }

/-- `determineVersionStreamConfig` (upgrade_boot.go:146-165): use the supplied
options when either is set, otherwise the requirements file; replace an
incomplete reference with the system-wide default. -/
def determineVersionStreamConfig (env : Env) (o : UpgradeBootOptions) :
    Except String VersionStreamConfig :=
  let selected : Except String VersionStreamConfig :=
    if o.VersionStreamURL == "" && o.VersionStreamRef == "" then
      match env.LoadRequirements with
      | .error e => .error (wrapErr "failed to load requirements config" e)
      | .ok (requirements, _) => .ok requirements.versionStream
    else
      .ok { Ref := o.VersionStreamRef, URL := o.VersionStreamURL }
  match selected with
  | .error e => .error e
  | .ok versionStreamConfig =>
    if versionStreamConfig.URL == "" || versionStreamConfig.Ref == "" then
      .ok (defaultVersionStreamConfig env)
    else
      .ok versionStreamConfig

/-- `upgradeAvailable` (upgrade_boot.go:194-210): clone the versions repo,
resolve the commit pointed to by the candidate tag, and compare the pinned ref
string against that sha; empty result means "no upgrade". -/
def upgradeAvailable (env : Env)
    (versionStreamURL versionStreamRef upgradeRef : String) :
    Except String String :=
  match env.CloneJXVersionsRepo versionStreamURL upgradeRef with
  | .error e => .error (wrapErr ("failed to clone versions repo " ++ versionStreamURL) e)
  | .ok versionsDir =>
    match env.GetCommitPointedToByTag versionsDir upgradeRef with
    | .error e => .error (wrapErr ("failed to get commit pointed to by " ++ upgradeRef) e)
    | .ok upgradeVersionSha =>
      if versionStreamRef == upgradeVersionSha then .ok ""
      else .ok upgradeVersionSha

/-- `setupGitConfig` (upgrade_boot.go:350-368): read the pipeline identity from
the dev environment and set the git username and email. -/
def setupGitConfig (env : Env) (dir : String) :
    Except String Unit × List Event :=
  match env.DevEnv with
  | .error e => (.error (wrapErr "failed to get dev environment in namespace" e), [])
  | .ok (username, email) =>
    match env.SetUsername dir username with
    | some e => (.error (wrapErr ("failed to set username " ++ username) e), [])
    | none =>
      match env.SetEmail dir email with
      | some e => (.error (wrapErr ("failed to set email for " ++ email) e),
          [Event.setUsername dir username])
      | none => (.ok (), [Event.setUsername dir username, Event.setEmail dir email])

/-- `checkoutNewBranch` (upgrade_boot.go:212-227): create a fresh uniquely-named
local branch and check it out. -/
def checkoutNewBranch (env : Env) (dir : String) :
    Except String String × List Event :=
  match env.NewBranchName with
  | .error e => (.error (wrapErr "creating UUID for local branch" e), [])
  | .ok localBranch =>
    match env.CreateBranch dir localBranch with
    | some e => (.error (wrapErr ("failed to create local branch " ++ localBranch) e), [])
    | none =>
      match env.Checkout dir localBranch with
      | some e => (.error (wrapErr ("failed to checkout local branch " ++ localBranch) e),
          [Event.createBranch dir localBranch])
      | none => (.ok localBranch,
          [Event.createBranch dir localBranch, Event.checkout dir localBranch])

/-- `determineBootConfigURL` (upgrade_boot.go:127-144). -/
def determineBootConfigURL (o : UpgradeBootOptions) (versionStreamURL : String) :
    Except String String :=
  if o.GitURL == "" then
    let bootConfigURL :=
      if versionStreamURL == DefaultVersionsURL then DefaultBootRepository
      else if versionStreamURL == DefaultCloudBeesVersionsURL then DefaultCloudBeesBootRepository
      else ""
    if bootConfigURL == "" then
      .error "unable to determine default boot config URL"
    else
      .ok bootConfigURL
  else
    .ok o.GitURL

/-- `updateVersionStreamRef` (upgrade_boot.go:229-248): load the requirements;
if the pinned version-stream ref differs from the target sha, update it, save
the file and commit it; otherwise do nothing. -/
def updateVersionStreamRef (env : Env) (dir upgradeRef : String) :
    Except String Unit × List Event :=
  match env.LoadRequirements with
  | .error e => (.error (wrapErr "failed to load requirements config" e), [])
  | .ok (requirements, requirementsFile) =>
    if requirements.versionStream.Ref == upgradeRef then
      (.ok (), [])
    else
      match env.SaveConfig requirementsFile with
      | some e => (.error (wrapErr ("failed to write version stream to " ++ requirementsFile) e), [])
      | none =>
        match env.AddCommitFiles dir "feat: upgrade version stream" [requirementsFile] with
        | some e => (.error (wrapErr ("failed to commit requirements file " ++ requirementsFile) e),
            [Event.saveConfig requirementsFile])
        | none => (.ok (),
            [Event.saveConfig requirementsFile,
             Event.addCommitFiles dir "feat: upgrade version stream" [requirementsFile]])

/-- `bootConfigRef` (upgrade_boot.go:295-309): resolve the boot-config version
through the version stream, then resolve the `v`-prefixed tag to a commit. -/
def bootConfigRef (env : Env) (dir versionStreamURL versionStreamRef configURL : String) :
    Except String (String × String) :=
  match env.ResolveGitVersion versionStreamURL versionStreamRef configURL with
  | .error e => .error (wrapErr ("failed to resolve config url " ++ configURL) e)
  | .ok configVersion =>
    match env.GetCommitPointedToByTag dir ("v" ++ configVersion) with
    | .error e => .error (wrapErr "failed to get commit pointed to by tag" e)
    | .ok cmtSha => .ok (cmtSha, configVersion)

/-- The exact error text recognised by `cherryPickCommits` as "merge commit
without a `-m` option" (upgrade_boot.go:339). -/
def mergeMsg (sha : String) : String :=
  "commit " ++ sha ++ " is a merge but no -m option was given."

/-- The body of the replay loop of `cherryPickCommits` (upgrade_boot.go:333-346),
on the list of commits in the order they are attempted (the reverse of the
newest-first history list).  A failed cherry-pick whose error contains the
merge-commit message is skipped; any other failure aborts. -/
def cherryPickGo (env : Env) (dir : String) :
    List GitCommit → Except String Unit × List Event
  | [] => (.ok (), [])
  | c :: rest =>
    match env.CherryPickTheirs dir c.sha with
    | some e =>
      if strContains e (mergeMsg c.sha) then
        let r := cherryPickGo env dir rest
        (r.1, Event.cherryPickAttempt dir c.sha :: r.2)
      else
        (.error (wrapErr ("cherry-picking " ++ c.sha) e),
         [Event.cherryPickAttempt dir c.sha])
    | none =>
      let r := cherryPickGo env dir rest
      (r.1, Event.cherryPickAttempt dir c.sha :: r.2)

/-- `cherryPickCommits` (upgrade_boot.go:325-348): list the history between the
two shas (newest-first) and replay it from the last element down to the first. -/
def cherryPickCommits (env : Env) (dir cloneDir fromSha toSha : String) :
    Except String Unit × List Event :=
  match env.GetCommits cloneDir fromSha toSha with
  | .error e => (.error (wrapErr ("failed to get commits from " ++ cloneDir) e), [])
  | .ok cmts => cherryPickGo env dir cmts.reverse

/-- `excludeFiles` (upgrade_boot.go:370-381): restore the protected `OWNERS`
file from the pre-upgrade commit and commit the restoration; a "nothing to
commit" failure of the commit step is not an error. -/
def excludeFiles (env : Env) (dir commit : String) :
    Except String Unit × List Event :=
  let excludedFiles := ["OWNERS"]
  match env.CheckoutCommitFiles dir commit excludedFiles with
  | some e => (.error (wrapErr "failed to checkout files" e), [])
  | none =>
    match env.AddCommitFiles dir "chore: exclude files from upgrade" excludedFiles with
    | some e =>
      if strContains e "nothing to commit" then
        (.ok (), [Event.checkoutCommitFiles dir commit excludedFiles])
      else
        (.error (wrapErr "failed to commit excluded files" e),
         [Event.checkoutCommitFiles dir commit excludedFiles])
    | none => (.ok (),
        [Event.checkoutCommitFiles dir commit excludedFiles,
         Event.addCommitFiles dir "chore: exclude files from upgrade" excludedFiles])

/-- `updateBootConfig` (upgrade_boot.go:250-293): clone the boot config repo,
resolve the "from" and "to" boot-config commits through the version stream;
when they are equal return success with nothing done, otherwise fetch master,
replay the delta and restore protected files. -/
def updateBootConfig (env : Env)
    (dir versionStreamURL versionStreamRef bootConfigURL upgradeVersionSha : String) :
    Except String Unit × List Event :=
  match env.CloneBare bootConfigURL with
  | .error e => (.error (wrapErr ("failed to clone boot config repo " ++ bootConfigURL) e), [])
  | .ok configCloneDir =>
    match bootConfigRef env configCloneDir versionStreamURL versionStreamRef bootConfigURL with
    | .error e => (.error (wrapErr ("failed to get boot config ref for version stream: " ++ versionStreamRef) e), [])
    | .ok (currentSha, _) =>
      match bootConfigRef env configCloneDir versionStreamURL upgradeVersionSha bootConfigURL with
      | .error e => (.error (wrapErr ("failed to get boot config ref for version stream ref: " ++ upgradeVersionSha) e), [])
      | .ok (upgradeSha, _) =>
        if upgradeSha == currentSha then
          (.ok (), [])
        else
          match env.FetchBranch dir bootConfigURL "master" with
          | some e => (.error (wrapErr ("failed to fetch master of " ++ bootConfigURL) e), [])
          | none =>
            let fetchEv := Event.fetchBranch dir bootConfigURL "master"
            let r1 := cherryPickCommits env dir configCloneDir currentSha upgradeSha
            match r1.1 with
            | .error e => (.error (wrapErr "failed to cherry pick upgrade commits" e),
                fetchEv :: r1.2)
            | .ok _ =>
              let r2 := excludeFiles env dir currentSha
              match r2.1 with
              | .error e => (.error (wrapErr "failed to exclude files from commit" e),
                  fetchEv :: (r1.2 ++ r2.2))
              | .ok _ => (.ok (), fetchEv :: (r1.2 ++ r2.2))

/-- `raisePR` (upgrade_boot.go:383-415): git info, provider lookup and
`PushRepoAndCreatePullRequest`, collapsed into one fallible oracle call; the
pull request is created exactly when the oracle succeeds. -/
def raisePR (env : Env) (dir : String) : Except String Unit × List Event :=
  match env.RaisePR with
  | some e => (.error e, [])
  | none => (.ok (), [Event.createPullRequest dir])

/-- `deleteLocalBranch` (upgrade_boot.go:417-427): check out master, then
delete the given local branch. -/
def deleteLocalBranch (env : Env) (dir branch : String) :
    Except String Unit × List Event :=
  match env.Checkout dir "master" with
  | some e => (.error (wrapErr "failed to checkout master branch" e), [])
  | none =>
    match env.DeleteLocalBranch dir branch with
    | some e => (.error (wrapErr ("failed to delete local branch " ++ branch) e),
        [Event.checkout dir "master"])
    | none => (.ok (),
        [Event.checkout dir "master", Event.deleteLocalBranch dir branch])

/-- `cloneDevEnv` (upgrade_boot.go:429-461), collapsed to its oracle: on
success it yields the clone directory which becomes the working `Dir`. -/
def cloneDevEnv (env : Env) : Except String String × List Event :=
  match env.CloneDevEnvDir with
  | .error e => (.error (wrapErr "failed to clone dev environment repo" e), [])
  | .ok cloneDir => (.ok cloneDir, [Event.cloneDevEnv cloneDir])

/-- `Run` (upgrade_boot.go:69-125): the full orchestration.  Each step's trace
is appended in order; any failing step aborts with the events performed so
far. -/
def Run (env : Env) (o : UpgradeBootOptions) : Except String Unit × List Event :=
  let s0 := setupGitConfig env o.Dir
  match s0.1 with
  | .error e => (.error (wrapErr "failed to setup git config" e), s0.2)
  | .ok _ =>
    let s1 := if o.Dir == "" then cloneDevEnv env else (.ok o.Dir, [])
    match s1.1 with
    | .error e => (.error e, s0.2 ++ s1.2)
    | .ok dir =>
      match determineVersionStreamConfig env o with
      | .error e => (.error (wrapErr "failed to get requirements version stream" e), s0.2 ++ s1.2)
      | .ok reqsVersionStream =>
        match upgradeAvailable env reqsVersionStream.URL reqsVersionStream.Ref "master" with
        | .error e => (.error (wrapErr "failed to get check for available update" e), s0.2 ++ s1.2)
        | .ok upgradeVersionSha =>
          if upgradeVersionSha == "" then
            (.ok (), s0.2 ++ s1.2)
          else
            let s2 := checkoutNewBranch env dir
            match s2.1 with
            | .error e => (.error (wrapErr "failed to checkout upgrade_branch" e),
                s0.2 ++ s1.2 ++ s2.2)
            | .ok localBranch =>
              match determineBootConfigURL o reqsVersionStream.URL with
              | .error e => (.error (wrapErr "failed to determine boot configuration URL" e),
                  s0.2 ++ s1.2 ++ s2.2)
              | .ok bootConfigURL =>
                let s3 := updateBootConfig env dir reqsVersionStream.URL reqsVersionStream.Ref
                    bootConfigURL upgradeVersionSha
                match s3.1 with
                | .error e => (.error (wrapErr "failed to update boot configuration" e),
                    s0.2 ++ s1.2 ++ s2.2 ++ s3.2)
                | .ok _ =>
                  let s4 := updateVersionStreamRef env dir upgradeVersionSha
                  match s4.1 with
                  | .error e => (.error (wrapErr "failed to update version stream ref" e),
                      s0.2 ++ s1.2 ++ s2.2 ++ s3.2 ++ s4.2)
                  | .ok _ =>
                    let s5 := raisePR env dir
                    match s5.1 with
                    | .error e => (.error (wrapErr "failed to raise pr" e),
                        s0.2 ++ s1.2 ++ s2.2 ++ s3.2 ++ s4.2 ++ s5.2)
                    | .ok _ =>
                      let s6 := deleteLocalBranch env dir localBranch
                      match s6.1 with
                      | .error e =>
                          (.error (wrapErr ("failed to delete local branch " ++ localBranch) e),
                           s0.2 ++ s1.2 ++ s2.2 ++ s3.2 ++ s4.2 ++ s5.2 ++ s6.2)
                      | .ok _ =>
                          (.ok (), s0.2 ++ s1.2 ++ s2.2 ++ s3.2 ++ s4.2 ++ s5.2 ++ s6.2)

/-! ### Concrete environments used to instantiate the theorems -/

/-- An environment in which every external call succeeds: the pinned stream ref
is `S0`, the candidate tag resolves to `S1`, and the boot-config tag resolves to
`C0` under both stream states. -/
def envOk : Env where
  DevEnv := .ok ("jenkins-x-bot", "jenkins-x@googlegroups.com")
  SetUsername := fun _ _ => none
  SetEmail := fun _ _ => none
  CloneDevEnvDir := .ok "/tmp/devenv"
  LoadRequirements := .ok
    ({ versionStream := { URL := "https://example.com/versions.git", Ref := "S0" } },
     "jx-requirements.yml")
  CloudBeesProfile := false
  CloneJXVersionsRepo := fun _ _ => .ok "vdir"
  GetCommitPointedToByTag := fun d _ => if d == "vdir" then .ok "S1" else .ok "C0"
  NewBranchName := .ok "branch-1"
  CreateBranch := fun _ _ => none
  Checkout := fun _ _ => none
  CloneBare := fun _ => .ok "cdir"
  ResolveGitVersion := fun _ _ _ => .ok "1.0.0"
  FetchBranch := fun _ _ _ => none
  GetCommits := fun _ _ _ => .ok []
  CherryPickTheirs := fun _ _ => none
  CheckoutCommitFiles := fun _ _ _ => none
  SaveConfig := fun _ => none
  AddCommitFiles := fun _ _ _ => none
  RaisePR := none
  DeleteLocalBranch := fun _ _ => none

/-- Standard options used by the concrete scenarios: a non-empty directory, a
supplied boot-config URL, and a complete version-stream reference pinned at
`S0`. -/
def oStd : UpgradeBootOptions where
  GitURL := "https://example.com/boot-config.git"
  VersionStreamURL := "https://example.com/versions.git"
  VersionStreamRef := "S0"
  Dir := "/workdir"

/-! ### C1 — upgrade availability decision -/

/-- Environment for the C1 counterexample: in the versions clone both the tag
`v1.2.3` (the pinned symbolic reference) and the candidate `master` point to
the same commit `abc123`. -/
def envC1 : Env :=
  { envOk with
    GetCommitPointedToByTag := fun d t =>
      if d == "vdir" && (t == "master" || t == "v1.2.3") then .ok "abc123"
      else .error "unknown tag" }

/-- Claim C1, counterexample: the pinned version-stream reference `v1.2.3` and
the candidate symbol `master` denote the same commit `abc123`, yet
`upgradeAvailable` does not return the "no upgrade" result — it returns the
candidate sha, because the source compares the pinned reference *string*
against the resolved candidate sha and never resolves the pinned reference. -/
theorem upgradeAvailable_same_commit_counterexample :
    envC1.GetCommitPointedToByTag "vdir" "v1.2.3" = Except.ok "abc123"
    ∧ envC1.GetCommitPointedToByTag "vdir" "master" = Except.ok "abc123"
    ∧ upgradeAvailable envC1 "https://example.com/versions.git" "v1.2.3" "master"
        = Except.ok "abc123"
    ∧ "abc123" ≠ "" := by
  refine ⟨rfl, rfl, rfl, by decide⟩

/-- Claim C1, amended: `upgradeAvailable` returns the "no upgrade" result (empty
sha, no error) exactly when the pinned version-stream reference *string* equals
the commit sha the candidate symbol resolves to; commit identity governs the
decision only in so far as the pinned reference is literally that resolved
sha (which is the convention: previous runs pin the resolved sha itself). -/
theorem upgradeAvailable_string_decision (env : Env)
    (url pinned upgradeRef vdir sha : String)
    (hclone : env.CloneJXVersionsRepo url upgradeRef = .ok vdir)
    (hres : env.GetCommitPointedToByTag vdir upgradeRef = .ok sha) :
    upgradeAvailable env url pinned upgradeRef
      = .ok (if pinned == sha then "" else sha)
    ∧ (sha ≠ "" →
        (upgradeAvailable env url pinned upgradeRef = .ok "" ↔ pinned = sha)) := by
  constructor
  · simp only [upgradeAvailable, hclone, hres]
    split <;> rfl
  · intro hsha
    simp only [upgradeAvailable, hclone, hres]
    by_cases h : pinned = sha
    · simp [h]
    · simp [h, hsha]

/-- Claim C1, witness for the amended theorem at a concrete input: pinned `S0`,
candidate resolving to `S1`. -/
theorem upgradeAvailable_string_decision_witness :
    upgradeAvailable envOk "https://example.com/versions.git" "S0" "master"
      = .ok (if "S0" == "S1" then "" else "S1")
    ∧ ("S1" ≠ "" →
        (upgradeAvailable envOk "https://example.com/versions.git" "S0" "master"
          = Except.ok "" ↔ "S0" = "S1")) :=
  upgradeAvailable_string_decision envOk "https://example.com/versions.git"
    "S0" "master" "vdir" "S1" rfl rfl

/-! ### C2 — merge-commit failures are skipped, others abort -/

/-- Claim C2: during replay, (1) `cherryPickCommits` runs the loop on the
reverse of the history list; (2) a cherry-pick failure whose error text
contains the merge-commit-without-`-m` message is swallowed — the commit is
skipped and the remaining commits are still attempted, with the overall result
that of the rest; (3) any other cherry-pick failure aborts immediately — the
wrapped error is returned to the caller and no subsequent commit is attempted
(the trace stops at the failing attempt). -/
theorem cherryPick_merge_skipped_other_aborts :
    (∀ env dir cloneDir fromSha toSha cmts,
      env.GetCommits cloneDir fromSha toSha = .ok cmts →
      cherryPickCommits env dir cloneDir fromSha toSha = cherryPickGo env dir cmts.reverse)
    ∧ (∀ (env : Env) (dir : String) (c : GitCommit) (rest : List GitCommit) (e : String),
      env.CherryPickTheirs dir c.sha = some e →
      strContains e (mergeMsg c.sha) = true →
      cherryPickGo env dir (c :: rest)
        = ((cherryPickGo env dir rest).1,
           Event.cherryPickAttempt dir c.sha :: (cherryPickGo env dir rest).2))
    ∧ (∀ (env : Env) (dir : String) (c : GitCommit) (rest : List GitCommit) (e : String),
      env.CherryPickTheirs dir c.sha = some e →
      strContains e (mergeMsg c.sha) = false →
      cherryPickGo env dir (c :: rest)
        = (.error (wrapErr ("cherry-picking " ++ c.sha) e),
           [Event.cherryPickAttempt dir c.sha])) := by
  refine ⟨?_, ?_, ?_⟩
  · intro env dir cloneDir fromSha toSha cmts h
    simp [cherryPickCommits, h]
  · intro env dir c rest e h hmerge
    simp [cherryPickGo, h, hmerge]
  · intro env dir c rest e h hmerge
    simp [cherryPickGo, h, hmerge]

/-- Environment for the C2 witness: three commits in newest-first order
`[c3, c2, c1]`; replaying `c2` fails with the merge-commit message, replaying
`c3` fails with an unrelated conflict, `c1` succeeds. -/
def envC2 : Env :=
  { envOk with
    GetCommits := fun _ _ _ => .ok [⟨"c3", "s3"⟩, ⟨"c2", "s2"⟩, ⟨"c1", "s1"⟩]
    CherryPickTheirs := fun _ sha =>
      if sha == "c2" then some (mergeMsg "c2")
      else if sha == "c3" then some "conflict: could not apply" else none }

/-- Claim C2, witness: each conjunct of the theorem instantiated on `envC2`. -/
theorem cherryPick_merge_skipped_other_aborts_witness :
    cherryPickCommits envC2 "/workdir" "cdir" "f" "t"
      = cherryPickGo envC2 "/workdir"
          ([⟨"c3", "s3"⟩, ⟨"c2", "s2"⟩, ⟨"c1", "s1"⟩] : List GitCommit).reverse
    ∧ cherryPickGo envC2 "/workdir" [⟨"c2", "s2"⟩, ⟨"c1", "s1"⟩]
        = ((cherryPickGo envC2 "/workdir" [⟨"c1", "s1"⟩]).1,
           Event.cherryPickAttempt "/workdir" "c2"
             :: (cherryPickGo envC2 "/workdir" [⟨"c1", "s1"⟩]).2)
    ∧ cherryPickGo envC2 "/workdir" [⟨"c3", "s3"⟩]
        = (.error (wrapErr ("cherry-picking " ++ "c3") "conflict: could not apply"),
           [Event.cherryPickAttempt "/workdir" "c3"]) :=
  ⟨cherryPick_merge_skipped_other_aborts.1 envC2 "/workdir" "cdir" "f" "t" _ rfl,
   cherryPick_merge_skipped_other_aborts.2.1 envC2 "/workdir" ⟨"c2", "s2"⟩
     [⟨"c1", "s1"⟩] (mergeMsg "c2") rfl (by decide),
   cherryPick_merge_skipped_other_aborts.2.2 envC2 "/workdir" ⟨"c3", "s3"⟩ []
     "conflict: could not apply" rfl (by decide)⟩

/-! ### C4 — replay order -/

/-- When every cherry-pick succeeds, the loop attempts exactly the commits of
its input list, in that order. -/
theorem cherryPickGo_all_ok (env : Env) (dir : String) :
    ∀ l : List GitCommit, (∀ c ∈ l, env.CherryPickTheirs dir c.sha = none) →
      cherryPickGo env dir l
        = (.ok (), l.map fun c => Event.cherryPickAttempt dir c.sha) := by
  intro l
  induction l with
  | nil => intro _; rfl
  | cons c rest ih =>
    intro h
    have hc := h c (List.mem_cons_self c rest)
    have hrest := ih fun x hx => h x (List.mem_cons_of_mem c hx)
    simp [cherryPickGo, hc, hrest]

/-- Claim C4: replay is order-preserving and oldest-first — for a history list
returned newest-first by the Git history query, `cherryPickCommits` attempts
the commits in the reverse of that list (so the oldest commit is applied first,
then the next, and so on). -/
theorem cherryPickCommits_oldest_first (env : Env)
    (dir cloneDir fromSha toSha : String) (cmts : List GitCommit)
    (h : env.GetCommits cloneDir fromSha toSha = .ok cmts)
    (hok : ∀ c ∈ cmts, env.CherryPickTheirs dir c.sha = none) :
    cherryPickCommits env dir cloneDir fromSha toSha
      = (.ok (), cmts.reverse.map fun c => Event.cherryPickAttempt dir c.sha) := by
  simp only [cherryPickCommits, h]
  exact cherryPickGo_all_ok env dir cmts.reverse
    fun c hc => hok c (List.mem_reverse.mp hc)

/-- Environment for the C4 witness: history `[c3, c2, c1]` (newest first), all
cherry-picks succeed. -/
def envC4 : Env :=
  { envOk with
    GetCommits := fun _ _ _ => .ok [⟨"c3", "s3"⟩, ⟨"c2", "s2"⟩, ⟨"c1", "s1"⟩] }

/-- Claim C4, witness: for the delta `[c1, c2, c3]` (oldest first), `c1` is
attempted before `c2` before `c3`. -/
theorem cherryPickCommits_oldest_first_witness :
    cherryPickCommits envC4 "/workdir" "cdir" "C0" "C1"
      = (.ok (), ([⟨"c3", "s3"⟩, ⟨"c2", "s2"⟩, ⟨"c1", "s1"⟩] : List GitCommit).reverse.map
          fun c => Event.cherryPickAttempt "/workdir" c.sha) :=
  cherryPickCommits_oldest_first envC4 "/workdir" "cdir" "C0" "C1"
    [⟨"c3", "s3"⟩, ⟨"c2", "s2"⟩, ⟨"c1", "s1"⟩] rfl (by decide)

/-! ### C6 — protected-file restoration -/

/-- Claim C6: `excludeFiles` restores the protected `OWNERS` file from the
pre-upgrade commit; (1) when the restoration commit fails with "nothing to
commit", the function succeeds and the trace records no new commit; (2) when
the commit succeeds, exactly one restoration commit is recorded. -/
theorem excludeFiles_nothing_to_commit_ok :
    (∀ (env : Env) (dir commit e : String),
      env.CheckoutCommitFiles dir commit ["OWNERS"] = none →
      env.AddCommitFiles dir "chore: exclude files from upgrade" ["OWNERS"] = some e →
      strContains e "nothing to commit" = true →
      excludeFiles env dir commit
        = (.ok (), [Event.checkoutCommitFiles dir commit ["OWNERS"]]))
    ∧ (∀ (env : Env) (dir commit : String),
      env.CheckoutCommitFiles dir commit ["OWNERS"] = none →
      env.AddCommitFiles dir "chore: exclude files from upgrade" ["OWNERS"] = none →
      excludeFiles env dir commit
        = (.ok (), [Event.checkoutCommitFiles dir commit ["OWNERS"],
            Event.addCommitFiles dir "chore: exclude files from upgrade" ["OWNERS"]])) := by
  constructor
  · intro env dir commit e h1 h2 h3
    simp [excludeFiles, h1, h2, h3]
  · intro env dir commit h1 h2
    simp [excludeFiles, h1, h2]

/-- Environment for the C6 witness, no-difference case: the restoration commit
reports "nothing to commit". -/
def envC6 : Env :=
  { envOk with
    AddCommitFiles := fun _ msg _ =>
      if msg == "chore: exclude files from upgrade" then
        some "nothing to commit, working tree clean"
      else none }

/-- Claim C6, witness: both cases instantiated — the no-difference case on
`envC6` and the one-commit case on `envOk`. -/
theorem excludeFiles_nothing_to_commit_ok_witness :
    excludeFiles envC6 "/workdir" "C0"
      = (.ok (), [Event.checkoutCommitFiles "/workdir" "C0" ["OWNERS"]])
    ∧ excludeFiles envOk "/workdir" "C0"
      = (.ok (), [Event.checkoutCommitFiles "/workdir" "C0" ["OWNERS"],
          Event.addCommitFiles "/workdir" "chore: exclude files from upgrade" ["OWNERS"]]) :=
  ⟨excludeFiles_nothing_to_commit_ok.1 envC6 "/workdir" "C0"
     "nothing to commit, working tree clean" rfl rfl (by decide),
   excludeFiles_nothing_to_commit_ok.2 envOk "/workdir" "C0" rfl rfl⟩

/-! ### C8 / C10 — version-stream config resolution -/

/-- Claim C8: (1) every version-stream reference returned successfully by
`determineVersionStreamConfig` has both URL and ref non-empty; (2) when the
supplied options are used and the resulting reference is incomplete, the whole
reference is replaced by the system-wide default; (3) likewise when the
requirements file supplies an incomplete reference. -/
theorem determineVersionStreamConfig_complete :
    (∀ (env : Env) (o : UpgradeBootOptions) (vs : VersionStreamConfig),
      determineVersionStreamConfig env o = .ok vs → vs.URL ≠ "" ∧ vs.Ref ≠ "")
    ∧ (∀ (env : Env) (o : UpgradeBootOptions),
      (o.VersionStreamURL == "" && o.VersionStreamRef == "") = false →
      (o.VersionStreamURL = "" ∨ o.VersionStreamRef = "") →
      determineVersionStreamConfig env o = .ok (defaultVersionStreamConfig env))
    ∧ (∀ (env : Env) (o : UpgradeBootOptions) (reqs : RequirementsConfig) (f : String),
      o.VersionStreamURL = "" → o.VersionStreamRef = "" →
      env.LoadRequirements = .ok (reqs, f) →
      (reqs.versionStream.URL = "" ∨ reqs.versionStream.Ref = "") →
      determineVersionStreamConfig env o = .ok (defaultVersionStreamConfig env)) := by
  have hdef : ∀ env : Env, (defaultVersionStreamConfig env).URL ≠ ""
      ∧ (defaultVersionStreamConfig env).Ref ≠ "" := by
    intro env
    unfold defaultVersionStreamConfig
    split <;> exact ⟨by decide, by decide⟩
  refine ⟨?_, ?_, ?_⟩
  · intro env o vs h
    simp only [determineVersionStreamConfig] at h
    split at h
    · simp at h
    · split at h
      · simp only [Except.ok.injEq] at h
        subst h
        exact hdef env
      · rename_i hc
        simp only [Except.ok.injEq] at h
        subst h
        simp only [Bool.or_eq_true, beq_iff_eq, not_or] at hc
        exact ⟨hc.1, hc.2⟩
  · intro env o hboth hone
    have hc : (o.VersionStreamURL == "" || o.VersionStreamRef == "") = true := by
      rcases hone with h | h <;> simp [h]
    simp [determineVersionStreamConfig, hboth, hc]
  · intro env o reqs f hu hr hload hinc
    have hc : (reqs.versionStream.URL == "" || reqs.versionStream.Ref == "") = true := by
      rcases hinc with h | h <;> simp [h]
    simp [determineVersionStreamConfig, hu, hr, hload, hc]

/-- Options supplying only the version-stream URL (the ref is empty). -/
def oOnlyURL : UpgradeBootOptions where
  GitURL := ""
  VersionStreamURL := "https://example.com/versions.git"
  VersionStreamRef := ""
  Dir := "/workdir"

/-- Options supplying only the version-stream ref (the URL is empty). -/
def oOnlyRef : UpgradeBootOptions where
  GitURL := ""
  VersionStreamURL := ""
  VersionStreamRef := "S0"
  Dir := "/workdir"

/-- Options supplying neither version-stream option. -/
def oEmpty : UpgradeBootOptions where
  GitURL := ""
  VersionStreamURL := ""
  VersionStreamRef := ""
  Dir := "/workdir"

/-- Environment whose requirements file carries an entirely empty
version-stream reference. -/
def envC8 : Env :=
  { envOk with
    LoadRequirements := .ok
      ({ versionStream := { URL := "", Ref := "" } }, "jx-requirements.yml") }

/-- Claim C8, witness: part (1) on the default reference produced from a
URL-only option set, part (2) on that option set, part (3) on an environment
whose requirements file carries an empty reference. -/
theorem determineVersionStreamConfig_complete_witness :
    ((defaultVersionStreamConfig envC8).URL ≠ "" ∧ (defaultVersionStreamConfig envC8).Ref ≠ "")
    ∧ determineVersionStreamConfig envC8 oOnlyURL = .ok (defaultVersionStreamConfig envC8)
    ∧ determineVersionStreamConfig envC8 oEmpty = .ok (defaultVersionStreamConfig envC8) :=
  ⟨determineVersionStreamConfig_complete.1 envC8 oOnlyURL _ rfl,
   determineVersionStreamConfig_complete.2.1 envC8 oOnlyURL (by decide) (Or.inr rfl),
   determineVersionStreamConfig_complete.2.2 envC8 oEmpty
     { versionStream := { URL := "", Ref := "" } } "jx-requirements.yml"
     rfl rfl rfl (Or.inl rfl)⟩

/-- Claim C10: when exactly one of the two version-stream command-line options
is supplied, `determineVersionStreamConfig` never consults the requirements
file (the result is the same for every value of the `LoadRequirements` oracle,
including a failing one) and returns the system-wide default, discarding the
supplied value. -/
theorem determineVersionStreamConfig_one_option_default (env : Env)
    (r : Except String (RequirementsConfig × String)) (o : UpgradeBootOptions)
    (h : (o.VersionStreamURL = "" ∧ o.VersionStreamRef ≠ "")
        ∨ (o.VersionStreamURL ≠ "" ∧ o.VersionStreamRef = "")) :
    determineVersionStreamConfig { env with LoadRequirements := r } o
      = .ok (defaultVersionStreamConfig env) := by
  have hboth : (o.VersionStreamURL == "" && o.VersionStreamRef == "") = false := by
    rcases h with ⟨_, h2⟩ | ⟨h1, _⟩ <;> simp [*]
  have hone : o.VersionStreamURL = "" ∨ o.VersionStreamRef = "" := by
    rcases h with ⟨h1, _⟩ | ⟨_, h2⟩
    · exact Or.inl h1
    · exact Or.inr h2
  have := determineVersionStreamConfig_complete.2.1
    { env with LoadRequirements := r } o hboth hone
  rw [this]
  rfl

/-- Claim C10, witness: a ref-only option set, with an unreadable requirements
file, still yields the system-wide default. -/
theorem determineVersionStreamConfig_one_option_default_witness :
    determineVersionStreamConfig
        { envOk with LoadRequirements := .error "unreadable" } oOnlyRef
      = .ok (defaultVersionStreamConfig envOk) :=
  determineVersionStreamConfig_one_option_default envOk (.error "unreadable")
    oOnlyRef (Or.inl ⟨rfl, by decide⟩)

/-! ### C9 — no-op when the pinned ref already equals the target -/

/-- Claim C9: when the loaded requirements already pin the target sha,
`updateVersionStreamRef` succeeds without saving the requirements file and
without creating any commit (its effect trace is empty). -/
theorem updateVersionStreamRef_noop (env : Env) (dir upgradeRef : String)
    (reqs : RequirementsConfig) (f : String)
    (hload : env.LoadRequirements = .ok (reqs, f))
    (heq : reqs.versionStream.Ref = upgradeRef) :
    updateVersionStreamRef env dir upgradeRef = (.ok (), []) := by
  simp [updateVersionStreamRef, hload, heq]

/-- Claim C9, witness: `envOk` pins `S0`; updating to `S0` is a no-op. -/
theorem updateVersionStreamRef_noop_witness :
    updateVersionStreamRef envOk "/workdir" "S0" = (.ok (), []) :=
  updateVersionStreamRef_noop envOk "/workdir" "S0"
    { versionStream := { URL := "https://example.com/versions.git", Ref := "S0" } }
    "jx-requirements.yml" rfl rfl

/-! ### C3 — equal boot-config revisions: no replay, pinned ref still advanced -/

/-- Claim C3: when the "from" and "to" boot-config revisions resolve to the
same commit, `updateBootConfig` succeeds with an empty effect trace (no fetch,
no cherry-pick, no replay); and the orchestrating `Run` still advances and
commits the pinned version-stream reference and still raises a pull request —
its full trace is exactly identity setup, branch creation, the pinned-ref save
and commit, the pull request, and cleanup, with no cherry-pick anywhere. -/
theorem run_noConfigUpgrade_still_updates_ref_and_prs (env : Env)
    (o : UpgradeBootOptions) (u em vdir sha br burl cdir csha cv uv rf : String)
    (vs : VersionStreamConfig) (reqs : RequirementsConfig)
    (h1 : env.DevEnv = .ok (u, em))
    (h2 : env.SetUsername o.Dir u = none)
    (h3 : env.SetEmail o.Dir em = none)
    (hd : o.Dir ≠ "")
    (h5 : determineVersionStreamConfig env o = .ok vs)
    (h6 : env.CloneJXVersionsRepo vs.URL "master" = .ok vdir)
    (h7 : env.GetCommitPointedToByTag vdir "master" = .ok sha)
    (h8 : vs.Ref ≠ sha)
    (h9 : sha ≠ "")
    (h10 : env.NewBranchName = .ok br)
    (h11 : env.CreateBranch o.Dir br = none)
    (h12 : env.Checkout o.Dir br = none)
    (h13 : determineBootConfigURL o vs.URL = .ok burl)
    (h14 : env.CloneBare burl = .ok cdir)
    (h15 : bootConfigRef env cdir vs.URL vs.Ref burl = .ok (csha, cv))
    (h16 : bootConfigRef env cdir vs.URL sha burl = .ok (csha, uv))
    (h17 : env.LoadRequirements = .ok (reqs, rf))
    (h18 : reqs.versionStream.Ref ≠ sha)
    (h19 : env.SaveConfig rf = none)
    (h20 : env.AddCommitFiles o.Dir "feat: upgrade version stream" [rf] = none)
    (h21 : env.RaisePR = none)
    (h22 : env.Checkout o.Dir "master" = none)
    (h23 : env.DeleteLocalBranch o.Dir br = none) :
    updateBootConfig env o.Dir vs.URL vs.Ref burl sha = (.ok (), [])
    ∧ Run env o = (.ok (),
        [Event.setUsername o.Dir u, Event.setEmail o.Dir em,
         Event.createBranch o.Dir br, Event.checkout o.Dir br,
         Event.saveConfig rf,
         Event.addCommitFiles o.Dir "feat: upgrade version stream" [rf],
         Event.createPullRequest o.Dir,
         Event.checkout o.Dir "master", Event.deleteLocalBranch o.Dir br]) := by
  have hub : updateBootConfig env o.Dir vs.URL vs.Ref burl sha = (.ok (), []) := by
    simp [updateBootConfig, h14, h15, h16]
  refine ⟨hub, ?_⟩
  have hup : upgradeAvailable env vs.URL vs.Ref "master" = .ok sha := by
    simp [upgradeAvailable, h6, h7, h8]
  simp [Run, setupGitConfig, h1, h2, h3, hd, h5, hup, h9, checkoutNewBranch,
    h10, h11, h12, h13, hub, updateVersionStreamRef, h17, h18, h19, h20,
    raisePR, h21, deleteLocalBranch, h22, h23]

/-- Environment for the C3 witness: stream moves from `S0` to `S1`, but the
boot-config tag resolves to the same commit `C0` under both. -/
def envC3 : Env := envOk

/-- Claim C3, witness: the scenario instantiated on `envC3` and `oStd`. -/
theorem run_noConfigUpgrade_still_updates_ref_and_prs_witness :
    updateBootConfig envC3 oStd.Dir "https://example.com/versions.git" "S0"
        "https://example.com/boot-config.git" "S1" = (.ok (), [])
    ∧ Run envC3 oStd = (.ok (),
        [Event.setUsername oStd.Dir "jenkins-x-bot",
         Event.setEmail oStd.Dir "jenkins-x@googlegroups.com",
         Event.createBranch oStd.Dir "branch-1", Event.checkout oStd.Dir "branch-1",
         Event.saveConfig "jx-requirements.yml",
         Event.addCommitFiles oStd.Dir "feat: upgrade version stream" ["jx-requirements.yml"],
         Event.createPullRequest oStd.Dir,
         Event.checkout oStd.Dir "master", Event.deleteLocalBranch oStd.Dir "branch-1"]) :=
  run_noConfigUpgrade_still_updates_ref_and_prs envC3 oStd
    "jenkins-x-bot" "jenkins-x@googlegroups.com" "vdir" "S1" "branch-1"
    "https://example.com/boot-config.git" "cdir" "C0" "1.0.0" "1.0.0"
    "jx-requirements.yml"
    { URL := "https://example.com/versions.git", Ref := "S0" }
    { versionStream := { URL := "https://example.com/versions.git", Ref := "S0" } }
    rfl rfl rfl (by decide) rfl rfl rfl (by decide) (by decide) rfl rfl rfl rfl
    rfl rfl rfl rfl (by decide) rfl rfl rfl rfl rfl

/-! ### C7 — no candidate commit: success with no side effects -/

/-- Events that belong to identity configuration or to acquiring the GitOps
clone itself; everything else (branch creation, checkouts, commits,
cherry-picks, pull requests, branch deletion) is a repository side effect. -/
def setupOnlyEvent : Event → Bool
  | .setUsername _ _ => true
  | .setEmail _ _ => true
  | .cloneDevEnv _ => true
  | _ => false

/-- Claim C7: when the availability check reports no candidate commit (empty
sha), `Run` returns success, and every event of its trace is identity
configuration (or the dev-env clone that obtains the repository when no
directory was given): no working branch is created, no commit is made, no pull
request is raised. -/
theorem run_no_upgrade_no_side_effects (env : Env) (o : UpgradeBootOptions)
    (u em : String) (vs : VersionStreamConfig)
    (h1 : env.DevEnv = .ok (u, em))
    (h2 : env.SetUsername o.Dir u = none)
    (h3 : env.SetEmail o.Dir em = none)
    (h4 : o.Dir ≠ "" ∨ ∃ d, env.CloneDevEnvDir = .ok d)
    (h5 : determineVersionStreamConfig env o = .ok vs)
    (h6 : upgradeAvailable env vs.URL vs.Ref "master" = .ok "") :
    (Run env o).1 = .ok () ∧ ∀ ev ∈ (Run env o).2, setupOnlyEvent ev = true := by
  by_cases hd : o.Dir = ""
  · rcases h4 with h4 | ⟨d, hclone⟩
    · exact absurd hd h4
    · have h2' := h2
      have h3' := h3
      rw [hd] at h2' h3'
      have hrun : Run env o = (.ok (),
          [Event.setUsername o.Dir u, Event.setEmail o.Dir em, Event.cloneDevEnv d]) := by
        simp [Run, setupGitConfig, h1, h2', h3', hd, cloneDevEnv, hclone, h5, h6]
      rw [hrun]
      refine ⟨rfl, ?_⟩
      intro ev hev
      simp only [List.mem_cons, List.not_mem_nil, or_false] at hev
      rcases hev with rfl | rfl | rfl <;> rfl
  · have hrun : Run env o = (.ok (),
        [Event.setUsername o.Dir u, Event.setEmail o.Dir em]) := by
      simp [Run, setupGitConfig, h1, h2, h3, hd, h5, h6]
    rw [hrun]
    refine ⟨rfl, ?_⟩
    intro ev hev
    simp only [List.mem_cons, List.not_mem_nil, or_false] at hev
    rcases hev with rfl | rfl <;> rfl

/-- Environment for the C7 witness: the candidate tag resolves to the pinned
commit `S0`, so no upgrade is available. -/
def envC7 : Env :=
  { envOk with GetCommitPointedToByTag := fun _ _ => .ok "S0" }

/-- Claim C7, witness: on `envC7` and `oStd` the run succeeds and every traced
event is identity configuration. -/
theorem run_no_upgrade_no_side_effects_witness :
    (Run envC7 oStd).1 = .ok ()
    ∧ ∀ ev ∈ (Run envC7 oStd).2, setupOnlyEvent ev = true :=
  run_no_upgrade_no_side_effects envC7 oStd
    "jenkins-x-bot" "jenkins-x@googlegroups.com"
    { URL := "https://example.com/versions.git", Ref := "S0" }
    rfl rfl rfl (Or.inl (by decide)) rfl rfl

/-! ### C5 — cleanup ordering: only after the PR, master first -/

/-- Recognises the working-branch deletion effect. -/
def isDeleteEvent : Event → Bool
  | .deleteLocalBranch _ _ => true
  | _ => false

/-- Recognises the pull-request creation effect. -/
def isPREvent : Event → Bool
  | .createPullRequest _ => true
  | _ => false

/-- Whether a trace contains a branch deletion. -/
def hasDelete (evs : List Event) : Bool := evs.any isDeleteEvent

/-- Whether a trace contains a pull-request creation. -/
def hasPR (evs : List Event) : Bool := evs.any isPREvent

theorem hasDelete_nil : hasDelete [] = false := rfl

theorem hasDelete_cons (e : Event) (l : List Event) :
    hasDelete (e :: l) = (isDeleteEvent e || hasDelete l) := by
  simp [hasDelete]

theorem hasDelete_append (l1 l2 : List Event) :
    hasDelete (l1 ++ l2) = (hasDelete l1 || hasDelete l2) := by
  simp [hasDelete]

theorem hasPR_append (l1 l2 : List Event) :
    hasPR (l1 ++ l2) = (hasPR l1 || hasPR l2) := by
  simp [hasPR]

theorem setupGitConfig_noDelete (env : Env) (dir : String) :
    hasDelete (setupGitConfig env dir).2 = false := by
  unfold setupGitConfig
  split
  · rfl
  · split
    · rfl
    · split <;> rfl

theorem cloneDevEnv_noDelete (env : Env) :
    hasDelete (cloneDevEnv env).2 = false := by
  unfold cloneDevEnv
  split <;> rfl

theorem checkoutNewBranch_noDelete (env : Env) (dir : String) :
    hasDelete (checkoutNewBranch env dir).2 = false := by
  unfold checkoutNewBranch
  split
  · rfl
  · split
    · rfl
    · split <;> rfl

theorem cherryPickGo_noDelete (env : Env) (dir : String) :
    ∀ l : List GitCommit, hasDelete (cherryPickGo env dir l).2 = false := by
  intro l
  induction l with
  | nil => rfl
  | cons c rest ih =>
    unfold cherryPickGo
    split
    · split
      · simpa [hasDelete_cons, isDeleteEvent] using ih
      · rfl
    · simpa [hasDelete_cons, isDeleteEvent] using ih

theorem cherryPickCommits_noDelete (env : Env) (dir cloneDir f t : String) :
    hasDelete (cherryPickCommits env dir cloneDir f t).2 = false := by
  unfold cherryPickCommits
  split
  · rfl
  · exact cherryPickGo_noDelete env dir _

theorem excludeFiles_noDelete (env : Env) (dir commit : String) :
    hasDelete (excludeFiles env dir commit).2 = false := by
  simp only [excludeFiles]
  split
  · rfl
  · split
    · split <;> rfl
    · rfl

theorem updateBootConfig_noDelete (env : Env) (dir a b c d : String) :
    hasDelete (updateBootConfig env dir a b c d).2 = false := by
  simp only [updateBootConfig]
  split
  · rfl
  · split
    · rfl
    · split
      · rfl
      · split
        · rfl
        · split
          · rfl
          · split
            · simp [hasDelete_cons, hasDelete_append, isDeleteEvent,
                cherryPickCommits_noDelete]
            · split <;>
              · simp [hasDelete_cons, hasDelete_append, isDeleteEvent,
                  cherryPickCommits_noDelete, excludeFiles_noDelete]

theorem updateVersionStreamRef_noDelete (env : Env) (dir upgradeRef : String) :
    hasDelete (updateVersionStreamRef env dir upgradeRef).2 = false := by
  unfold updateVersionStreamRef
  split
  · rfl
  · split
    · rfl
    · split
      · rfl
      · split <;> rfl

theorem raisePR_noDelete (env : Env) (dir : String) :
    hasDelete (raisePR env dir).2 = false := by
  unfold raisePR
  split <;> rfl

/-- The second stage of `Run` (using the given directory, or cloning the dev
environment when none is given) deletes no branch. -/
theorem dirStage_noDelete (c : Prop) [Decidable c] (env : Env) (d : String) :
    hasDelete (if c then cloneDevEnv env else (Except.ok d, [])).2 = false := by
  split
  · exact cloneDevEnv_noDelete env
  · rfl

/-- A failing `deleteLocalBranch` performed no deletion. -/
theorem deleteLocalBranch_err_noDelete (env : Env) (dir branch e : String)
    (h : (deleteLocalBranch env dir branch).1 = .error e) :
    hasDelete (deleteLocalBranch env dir branch).2 = false := by
  unfold deleteLocalBranch at *
  split at h
  · rfl
  · split at h
    · rfl
    · simp at h

/-- Master case analysis of `Run`: either its trace deletes no branch, or the
run succeeded and its trace also contains the pull-request creation. -/
theorem run_delete_master (env : Env) (o : UpgradeBootOptions) :
    hasDelete (Run env o).2 = false
    ∨ ((Run env o).1 = .ok () ∧ hasPR (Run env o).2 = true) := by
  rcases hr : Run env o with ⟨res, evs⟩
  simp only [Run] at hr
  split at hr
  · cases hr
    exact Or.inl (setupGitConfig_noDelete env o.Dir)
  · split at hr
    · cases hr
      exact Or.inl (by
        simp [hasDelete_append, setupGitConfig_noDelete, dirStage_noDelete])
    · split at hr
      · cases hr
        exact Or.inl (by
          simp [hasDelete_append, setupGitConfig_noDelete, dirStage_noDelete])
      · split at hr
        · cases hr
          exact Or.inl (by
            simp [hasDelete_append, setupGitConfig_noDelete, dirStage_noDelete])
        · split at hr
          · cases hr
            exact Or.inl (by
              simp [hasDelete_append, setupGitConfig_noDelete, dirStage_noDelete])
          · split at hr
            · cases hr
              exact Or.inl (by
                simp [hasDelete_append, setupGitConfig_noDelete, dirStage_noDelete,
                  checkoutNewBranch_noDelete])
            · split at hr
              · cases hr
                exact Or.inl (by
                  simp [hasDelete_append, setupGitConfig_noDelete, dirStage_noDelete,
                    checkoutNewBranch_noDelete])
              · split at hr
                · cases hr
                  exact Or.inl (by
                    simp [hasDelete_append, setupGitConfig_noDelete, dirStage_noDelete,
                      checkoutNewBranch_noDelete, updateBootConfig_noDelete])
                · split at hr
                  · cases hr
                    exact Or.inl (by
                      simp [hasDelete_append, setupGitConfig_noDelete, dirStage_noDelete,
                        checkoutNewBranch_noDelete, updateBootConfig_noDelete,
                        updateVersionStreamRef_noDelete])
                  · split at hr
                    · cases hr
                      exact Or.inl (by
                        simp [hasDelete_append, setupGitConfig_noDelete, dirStage_noDelete,
                          checkoutNewBranch_noDelete, updateBootConfig_noDelete,
                          updateVersionStreamRef_noDelete, raisePR_noDelete])
                    · split at hr
                      · rename_i e hdel
                        cases hr
                        exact Or.inl (by
                          simp [hasDelete_append, setupGitConfig_noDelete, dirStage_noDelete,
                            checkoutNewBranch_noDelete, updateBootConfig_noDelete,
                            updateVersionStreamRef_noDelete, raisePR_noDelete,
                            deleteLocalBranch_err_noDelete _ _ _ _ hdel])
                      · cases hr
                        refine Or.inr ⟨rfl, ?_⟩
                        rcases hps : env.RaisePR with _ | e
                        · simp [hasPR_append, raisePR, hps, hasPR, isPREvent]
                        · exfalso
                          simp_all [raisePR]

/-- Claim C5: (1) `deleteLocalBranch` only ever deletes after checking out
master — whenever its trace contains a deletion, the trace is exactly
checkout-master followed by the deletion; (2) if any step of `Run` fails, the
returned trace contains no branch deletion (the working branch is left in
place); (3) whenever `Run`'s trace deletes the working branch, the trace also
contains the pull-request creation — cleanup happens only on runs that raised
the PR. -/
theorem run_cleanup_after_pr_master_first :
    (∀ (env : Env) (dir branch d b : String),
      Event.deleteLocalBranch d b ∈ (deleteLocalBranch env dir branch).2 →
      (deleteLocalBranch env dir branch).2
        = [Event.checkout dir "master", Event.deleteLocalBranch dir branch])
    ∧ (∀ (env : Env) (o : UpgradeBootOptions) (e : String),
      (Run env o).1 = .error e → hasDelete (Run env o).2 = false)
    ∧ (∀ (env : Env) (o : UpgradeBootOptions),
      hasDelete (Run env o).2 = true → hasPR (Run env o).2 = true) := by
  refine ⟨?_, ?_, ?_⟩
  · intro env dir branch d b hmem
    unfold deleteLocalBranch at *
    split at hmem
    · simp at hmem
    · split at hmem
      · simp at hmem
      · rfl
  · intro env o e herr
    rcases run_delete_master env o with h | ⟨hok, _⟩
    · exact h
    · rw [hok] at herr
      simp at herr
  · intro env o hdel
    rcases run_delete_master env o with h | ⟨_, hpr⟩
    · rw [h] at hdel
      simp at hdel
    · exact hpr

/-- Environment in which raising the pull request fails. -/
def envPRFail : Env := { envOk with RaisePR := some "403 forbidden" }

/-- Claim C5, witness: (1) the successful cleanup trace on `envOk` checks out
master first then deletes; (2) a run failing at the PR step deletes no branch;
(3) the fully successful run both deletes the branch and raised the PR. -/
theorem run_cleanup_after_pr_master_first_witness :
    (deleteLocalBranch envOk "/workdir" "branch-1").2
      = [Event.checkout "/workdir" "master", Event.deleteLocalBranch "/workdir" "branch-1"]
    ∧ hasDelete (Run envPRFail oStd).2 = false
    ∧ hasPR (Run envOk oStd).2 = true :=
  ⟨run_cleanup_after_pr_master_first.1 envOk "/workdir" "branch-1" "/workdir" "branch-1"
     (by decide),
   run_cleanup_after_pr_master_first.2.1 envPRFail oStd
     (wrapErr "failed to raise pr" "403 forbidden") rfl,
   run_cleanup_after_pr_master_first.2.2 envOk oStd (by decide)⟩

end UpgradeBoot
